import Mathlib

/-!
# Element access of gsl_vector_int

A shallow embedding of the four inline accessors of
blepo/external/WinGsl/Gsl/gsl_vector_int.h

* gsl_vector_int_get
* gsl_vector_int_set
* gsl_vector_int_ptr
* gsl_vector_int_const_ptr

together with the part of the C memory they touch.

Conventions of the embedding.

* A value of type size_t is a natural number; the one arithmetic operation
  the accessors perform on size_t, the product i * v->stride, is taken
  modulo 2 ^ w, where w is the width of size_t (a parameter).
* A value of type int is an integer. The accessors only move such values
  around, they never compute with them.
* The array that v->data points into is a finite list of cells. A pointer
  into it is a position in that list. Reading or writing a position that
  is not in the list has no defined behaviour in C and is reported as
  the fault undefined.
* GSL_RANGE_CHECK comes from gsl_check_range.h, which is not among the
  sources. It is a parameter of every accessor.
-/

namespace Gsl

/-! ## Data model -/

/-- The struct gsl_vector_int (gsl_vector_int.h, lines 43 to 51).
The field data is the position, inside the array it points into, of the
first logical element. The field block is the address of the gsl_block_int
the vector draws from (0 for a null pointer); the accessors never follow it. -/
structure gsl_vector_int where
  size : Nat
  stride : Nat
  data : Nat
  block : Nat
  owner : Int
  deriving DecidableEq

/-- The memory an accessor call can see through its argument v: the struct
that v points to and the array that v->data points into. -/
structure State where
  vec : gsl_vector_int
  cells : List Int
  deriving DecidableEq

/-- A pointer to int as a C value: none is the null pointer, some p points
at position p of the array. -/
abbrev Pointer := Option Nat

/-- The null pointer. -/
def NULL : Pointer := none

/-! ## Errors -/

/-- Modelled from the spec: the error codes of gsl_errno.h, which is not
among the sources. The accessors use GSL_EINVAL only; reported with the
reason "index out of range" it is the IndexOutOfRange of the spec. -/
inductive gsl_errno_code where
  | GSL_EINVAL
  deriving DecidableEq

/-- The two ways in which a call does not return normally.

* gsl_error reason code value: the call reported an error through one of
  the GSL_ERROR macros; value is what the macro hands back to the caller
  (for a function returning void, the memory it leaves behind).
* undefined: the call read or wrote outside the array, which C leaves
  undefined. -/
inductive Fault (α : Type) where
  | gsl_error (reason : String) (gsl_errno : gsl_errno_code) (value : α)
  | undefined
  deriving DecidableEq

deriving instance DecidableEq for Except

/-- Modelled from the spec: GSL_ERROR_VAL of gsl_errno.h, which is not among
the sources. The spec says of a range violation under checking that the call
fails with IndexOutOfRange, reported synchronously at the call that triggered
it. The failure carries the three arguments of the macro. -/
def GSL_ERROR_VAL {α : Type} (reason : String) (gsl_errno : gsl_errno_code) (value : α) :
    Except (Fault α) α :=
  Except.error (Fault.gsl_error reason gsl_errno value)

/-- Modelled from the spec: GSL_ERROR_VOID of gsl_errno.h, the form of
GSL_ERROR_VAL for a function returning void. In state passing style the
function hands back the memory as it is at that point. -/
def GSL_ERROR_VOID (reason : String) (gsl_errno : gsl_errno_code) (s : State) :
    Except (Fault State) State :=
  GSL_ERROR_VAL reason gsl_errno s

/-- Modelled from the spec: GSL_ERROR_NULL of gsl_errno.h, the form of
GSL_ERROR_VAL for a function returning a pointer: it hands back NULL. -/
def GSL_ERROR_NULL (reason : String) (gsl_errno : gsl_errno_code) :
    Except (Fault Pointer) Pointer :=
  GSL_ERROR_VAL reason gsl_errno NULL

/-! ## Memory -/

/-- Multiplication of two size_t values of width w. -/
def size_t_mul (w a b : Nat) : Nat := (a * b) % 2 ^ w

/-- Read the cell at position p. -/
def load (cells : List Int) (p : Nat) : Option Int := cells[p]?

/-- Write x into the cell at position p. -/
def store (cells : List Int) (p : Nat) (x : Int) : Option (List Int) :=
  if p < cells.length then some (cells.set p x) else none

/-- Read through a pointer, the C expression *q. -/
def deref (cells : List Int) : Pointer → Option Int
  | none => none
  | some p => load cells p

/-- Write through a pointer, the C statement *q = x. -/
def assign (cells : List Int) : Pointer → Int → Option (List Int)
  | none, _ => none
  | some p, x => store cells p x

/-! ## The accessors -/

/-- The function gsl_vector_int_get (lines 169 to 180):

    if (i >= v->size) GSL_ERROR_VAL ("index out of range", GSL_EINVAL, 0);
    return v->data[i * v->stride];

where the test is compiled in only under GSL_RANGE_CHECK. -/
def gsl_vector_int_get (w : Nat) (GSL_RANGE_CHECK : Bool) (s : State) (i : Nat) :
    Except (Fault Int) Int :=
  if GSL_RANGE_CHECK && decide (i ≥ s.vec.size) then
    GSL_ERROR_VAL "index out of range" gsl_errno_code.GSL_EINVAL 0
  else
    match load s.cells (s.vec.data + size_t_mul w i s.vec.stride) with
    | some x => Except.ok x
    | none => Except.error Fault.undefined

/-- The function gsl_vector_int_set (lines 182 to 193):

    if (i >= v->size) GSL_ERROR_VOID ("index out of range", GSL_EINVAL);
    v->data[i * v->stride] = x;

where the test is compiled in only under GSL_RANGE_CHECK. The result is the
memory after the call. -/
def gsl_vector_int_set (w : Nat) (GSL_RANGE_CHECK : Bool) (s : State) (i : Nat) (x : Int) :
    Except (Fault State) State :=
  if GSL_RANGE_CHECK && decide (i ≥ s.vec.size) then
    GSL_ERROR_VOID "index out of range" gsl_errno_code.GSL_EINVAL s
  else
    match store s.cells (s.vec.data + size_t_mul w i s.vec.stride) x with
    | some cells => Except.ok { s with cells := cells }
    | none => Except.error Fault.undefined

/-- The function gsl_vector_int_ptr (lines 195 to 206):

    if (i >= v->size) GSL_ERROR_NULL ("index out of range", GSL_EINVAL);
    return (int *) (v->data + i * v->stride);

where the test is compiled in only under GSL_RANGE_CHECK. Forming the
address is arithmetic on positions; only a later read or write through the
pointer looks at the bounds of the array. -/
def gsl_vector_int_ptr (w : Nat) (GSL_RANGE_CHECK : Bool) (s : State) (i : Nat) :
    Except (Fault Pointer) Pointer :=
  if GSL_RANGE_CHECK && decide (i ≥ s.vec.size) then
    GSL_ERROR_NULL "index out of range" gsl_errno_code.GSL_EINVAL
  else
    Except.ok (some (s.vec.data + size_t_mul w i s.vec.stride))

/-- The function gsl_vector_int_const_ptr (lines 208 to 219):

    if (i >= v->size) GSL_ERROR_NULL ("index out of range", GSL_EINVAL);
    return (const int *) (v->data + i * v->stride);

where the test is compiled in only under GSL_RANGE_CHECK. -/
def gsl_vector_int_const_ptr (w : Nat) (GSL_RANGE_CHECK : Bool) (s : State) (i : Nat) :
    Except (Fault Pointer) Pointer :=
  if GSL_RANGE_CHECK && decide (i ≥ s.vec.size) then
    GSL_ERROR_NULL "index out of range" gsl_errno_code.GSL_EINVAL
  else
    Except.ok (some (s.vec.data + size_t_mul w i s.vec.stride))

/-! ## Vocabulary of the properties -/

/-- The position that the accessors address for logical index i. -/
def slot (w : Nat) (v : gsl_vector_int) (i : Nat) : Nat :=
  v.data + size_t_mul w i v.stride

/-- A sample memory: a vector of 3 elements with stride 2 whose first element
is cell 1 of an array of 7 cells. -/
def sample : State :=
  { vec := { size := 3, stride := 2, data := 1, block := 0, owner := 0 },
    cells := [10, 11, 12, 13, 14, 15, 16] }

/-- A vector of 2 elements with stride 0 over an array of one cell: both
logical elements are cell 0. -/
def stride_zero : State :=
  { vec := { size := 2, stride := 0, data := 0, block := 0, owner := 0 },
    cells := [7] }

/-- A vector of 3 elements with stride 2 ^ 63 over an array of one cell, for
a size_t of 64 bits: the product 2 * 2 ^ 63 wraps to 0. -/
def wrapping : State :=
  { vec := { size := 3, stride := 9223372036854775808, data := 0, block := 0, owner := 0 },
    cells := [7] }

/-- Whether a call reported an error through one of the GSL_ERROR forms. -/
def reported {α : Type} : Except (Fault α) α → Bool
  | Except.error (Fault.gsl_error _ _ _) => true
  | _ => false

/-! ## The accessors on the sample memory -/

theorem sample_get : gsl_vector_int_get 64 true sample 2 = Except.ok 15 := by decide

theorem sample_get_checked : gsl_vector_int_get 64 true sample 3 =
    Except.error (Fault.gsl_error "index out of range" gsl_errno_code.GSL_EINVAL 0) := by
  decide

theorem sample_get_unchecked :
    gsl_vector_int_get 64 false sample 3 = Except.error Fault.undefined := by
  decide

theorem sample_set : gsl_vector_int_set 64 true sample 1 99 =
    Except.ok { sample with cells := [10, 11, 12, 99, 14, 15, 16] } := by
  decide

theorem sample_ptr : gsl_vector_int_ptr 64 true sample 1 = Except.ok (some 3) := by decide

/-! ## Shared lemmas -/

theorem range_check_skipped (rc : Bool) {n i : Nat} (h : i < n) :
    (rc && decide (i ≥ n)) = false := by
  have h1 : ¬ n ≤ i := Nat.not_le.mpr h
  simp [h1]

theorem range_check_taken {n i : Nat} (h : n ≤ i) :
    (true && decide (i ≥ n)) = true := by
  simp [h]

theorem size_t_mul_le (w a b : Nat) : size_t_mul w a b ≤ a * b :=
  Nat.mod_le _ _

theorem size_t_mul_exact {w a b : Nat} (h : a * b < 2 ^ w) : size_t_mul w a b = a * b :=
  Nat.mod_eq_of_lt h

theorem get_in_range (w : Nat) (rc : Bool) (s : State) (i : Nat) (hi : i < s.vec.size) :
    gsl_vector_int_get w rc s i =
      match load s.cells (slot w s.vec i) with
      | some x => Except.ok x
      | none => Except.error Fault.undefined := by
  simp only [gsl_vector_int_get, slot, range_check_skipped rc hi]
  rfl

theorem set_in_range (w : Nat) (rc : Bool) (s : State) (i : Nat) (x : Int)
    (hi : i < s.vec.size) :
    gsl_vector_int_set w rc s i x =
      match store s.cells (slot w s.vec i) x with
      | some cells => Except.ok { s with cells := cells }
      | none => Except.error Fault.undefined := by
  simp only [gsl_vector_int_set, slot, range_check_skipped rc hi]
  rfl

theorem ptr_in_range (w : Nat) (rc : Bool) (s : State) (i : Nat) (hi : i < s.vec.size) :
    gsl_vector_int_ptr w rc s i = Except.ok (some (slot w s.vec i)) := by
  simp only [gsl_vector_int_ptr, slot, range_check_skipped rc hi]
  rfl

theorem const_ptr_in_range (w : Nat) (rc : Bool) (s : State) (i : Nat) (hi : i < s.vec.size) :
    gsl_vector_int_const_ptr w rc s i = Except.ok (some (slot w s.vec i)) := by
  simp only [gsl_vector_int_const_ptr, slot, range_check_skipped rc hi]
  rfl

theorem store_in_bounds (cells : List Int) (p : Nat) (x : Int) (h : p < cells.length) :
    store cells p x = some (cells.set p x) := by
  simp [store, h]

theorem load_in_bounds (cells : List Int) (p : Nat) (h : p < cells.length) :
    load cells p = some cells[p] := by
  simp [load, h]

/-- In range and with the addressed cell inside the array, set succeeds and
replaces exactly that cell. -/
theorem set_ok (w : Nat) (rc : Bool) (s : State) (i : Nat) (x : Int)
    (hi : i < s.vec.size) (hmem : slot w s.vec i < s.cells.length) :
    gsl_vector_int_set w rc s i x =
      Except.ok { s with cells := s.cells.set (slot w s.vec i) x } := by
  rw [set_in_range w rc s i x hi, store_in_bounds _ _ _ hmem]

/-- In range and with the addressed cell inside the array, get succeeds and
returns the content of that cell. -/
theorem get_ok (w : Nat) (rc : Bool) (s : State) (i : Nat)
    (hi : i < s.vec.size) (hmem : slot w s.vec i < s.cells.length) :
    gsl_vector_int_get w rc s i = Except.ok s.cells[slot w s.vec i] := by
  rw [get_in_range w rc s i hi, load_in_bounds _ _ hmem]

/-- A valid offset inside an array whose length is a size_t value is computed
without wrapping. -/
theorem slot_exact (w : Nat) (s : State) (i : Nat)
    (hlen : s.cells.length < 2 ^ w)
    (hmem : s.vec.data + i * s.vec.stride < s.cells.length) :
    slot w s.vec i = s.vec.data + i * s.vec.stride := by
  have h : i * s.vec.stride < 2 ^ w := by omega
  simp [slot, size_t_mul_exact h]

/-! ## C1: get after set -/

/-- C1. For every vector, every index i below its size whose cell lies in the
array, and every x: set at i succeeds, and get at i on the memory it leaves
returns x. This holds for any stride and with range checking on or off. -/
theorem gsl_vector_int_get_after_set (w : Nat) (rc : Bool) (s : State) (i : Nat) (x : Int)
    (hi : i < s.vec.size) (hmem : slot w s.vec i < s.cells.length) :
    ∃ s', gsl_vector_int_set w rc s i x = Except.ok s' ∧
      gsl_vector_int_get w rc s' i = Except.ok x := by
  refine ⟨{ s with cells := s.cells.set (slot w s.vec i) x }, set_ok w rc s i x hi hmem, ?_⟩
  have hmem' : slot w s.vec i < (s.cells.set (slot w s.vec i) x).length := by
    simpa using hmem
  rw [get_ok w rc { vec := s.vec, cells := s.cells.set (slot w s.vec i) x } i hi hmem']
  simp

theorem gsl_vector_int_get_after_set_witness :
    ∃ s', gsl_vector_int_set 64 true sample 1 99 = Except.ok s' ∧
      gsl_vector_int_get 64 true s' 1 = Except.ok 99 :=
  gsl_vector_int_get_after_set 64 true sample 1 99 (by decide) (by decide)

/-! ## C2: get reads the cell at offset i * stride -/

/-- C2. For every vector and every index i below its size, get returns the
element stored at offset i * stride from data. The element exists: that offset
lies in the array, and the length of the array is a size_t value. -/
theorem gsl_vector_int_get_offset (w : Nat) (rc : Bool) (s : State) (i : Nat)
    (hi : i < s.vec.size) (hlen : s.cells.length < 2 ^ w)
    (hmem : s.vec.data + i * s.vec.stride < s.cells.length) :
    gsl_vector_int_get w rc s i = Except.ok s.cells[s.vec.data + i * s.vec.stride] := by
  have hslot := slot_exact w s i hlen hmem
  have hmem' : slot w s.vec i < s.cells.length := by omega
  rw [get_ok w rc s i hi hmem']
  simp only [hslot]

theorem gsl_vector_int_get_offset_witness :
    gsl_vector_int_get 64 true sample 2 = Except.ok 15 :=
  gsl_vector_int_get_offset 64 true sample 2 (by decide) (by decide) (by decide)

/-! ## C3: the range check of get -/

/-- C3. With range checking enabled, get reports an error exactly when
i >= size; the error is then "index out of range" with GSL_EINVAL whatever
the array holds (even an empty one), so no cell is read. -/
theorem gsl_vector_int_get_range_check (w : Nat) (s : State) (i : Nat) :
    (reported (gsl_vector_int_get w true s i) = true ↔ i ≥ s.vec.size) ∧
    (i ≥ s.vec.size → ∀ cells : List Int,
      gsl_vector_int_get w true { s with cells := cells } i =
        Except.error (Fault.gsl_error "index out of range" gsl_errno_code.GSL_EINVAL 0)) := by
  constructor
  · constructor
    · intro h
      by_contra hlt
      have hi : i < s.vec.size := Nat.lt_of_not_le hlt
      rw [get_in_range w true s i hi] at h
      cases hl : load s.cells (slot w s.vec i) <;> simp [hl, reported] at h
    · intro h
      simp only [gsl_vector_int_get, range_check_taken h]
      rfl
  · intro h cells
    simp only [gsl_vector_int_get, range_check_taken h]
    rfl

/-! ## C4: set outside the range leaves everything as it was -/

/-- C4. With range checking enabled, for every vector, every index i >= size
and every x, set fails with "index out of range" and the memory it hands back
is the memory it was given: same array, same size, stride, data, block and
owner. -/
theorem gsl_vector_int_set_out_of_range (w : Nat) (s : State) (i : Nat) (x : Int)
    (hi : i ≥ s.vec.size) :
    ∃ s', gsl_vector_int_set w true s i x =
        Except.error (Fault.gsl_error "index out of range" gsl_errno_code.GSL_EINVAL s') ∧
      s'.cells = s.cells ∧ s'.vec.size = s.vec.size ∧ s'.vec.stride = s.vec.stride ∧
      s'.vec.data = s.vec.data ∧ s'.vec.block = s.vec.block ∧ s'.vec.owner = s.vec.owner := by
  refine ⟨s, ?_, rfl, rfl, rfl, rfl, rfl, rfl⟩
  simp only [gsl_vector_int_set, range_check_taken hi]
  rfl

theorem gsl_vector_int_set_out_of_range_witness :
    ∃ s', gsl_vector_int_set 64 true sample 3 99 =
        Except.error (Fault.gsl_error "index out of range" gsl_errno_code.GSL_EINVAL s') ∧
      s'.cells = sample.cells ∧ s'.vec.size = sample.vec.size ∧
      s'.vec.stride = sample.vec.stride ∧ s'.vec.data = sample.vec.data ∧
      s'.vec.block = sample.vec.block ∧ s'.vec.owner = sample.vec.owner :=
  gsl_vector_int_set_out_of_range 64 sample 3 99 (by decide)

/-! ## C5: set writes the cell at offset i * stride and nothing else -/

/-- C5. For every vector, every index i below its size and every x, set writes
x at offset i * stride from data: the array afterwards is the array before with
that one cell replaced by x, every other cell keeps its value, and size, stride,
data, block and owner are unchanged. The cell exists: that offset lies in the
array, and the length of the array is a size_t value. -/
theorem gsl_vector_int_set_offset (w : Nat) (rc : Bool) (s : State) (i : Nat) (x : Int)
    (hi : i < s.vec.size) (hlen : s.cells.length < 2 ^ w)
    (hmem : s.vec.data + i * s.vec.stride < s.cells.length) :
    ∃ s', gsl_vector_int_set w rc s i x = Except.ok s' ∧
      s'.cells = s.cells.set (s.vec.data + i * s.vec.stride) x ∧
      s'.cells.length = s.cells.length ∧
      s'.cells[s.vec.data + i * s.vec.stride]? = some x ∧
      (∀ p, p ≠ s.vec.data + i * s.vec.stride → s'.cells[p]? = s.cells[p]?) ∧
      s'.vec.size = s.vec.size ∧ s'.vec.stride = s.vec.stride ∧
      s'.vec.data = s.vec.data ∧ s'.vec.block = s.vec.block ∧ s'.vec.owner = s.vec.owner := by
  have hslot := slot_exact w s i hlen hmem
  have hmem' : slot w s.vec i < s.cells.length := by omega
  refine ⟨{ s with cells := s.cells.set (s.vec.data + i * s.vec.stride) x }, ?_, rfl, ?_, ?_, ?_,
    rfl, rfl, rfl, rfl, rfl⟩
  · rw [set_ok w rc s i x hi hmem', hslot]
  · simp
  · simp [hmem]
  · intro p hp
    simp [List.getElem?_set_ne (Ne.symm hp)]

theorem gsl_vector_int_set_offset_witness :
    ∃ s', gsl_vector_int_set 64 true sample 1 99 = Except.ok s' ∧
      s'.cells = sample.cells.set (sample.vec.data + 1 * sample.vec.stride) 99 ∧
      s'.cells.length = sample.cells.length ∧
      s'.cells[sample.vec.data + 1 * sample.vec.stride]? = some 99 ∧
      (∀ p, p ≠ sample.vec.data + 1 * sample.vec.stride → s'.cells[p]? = sample.cells[p]?) ∧
      s'.vec.size = sample.vec.size ∧ s'.vec.stride = sample.vec.stride ∧
      s'.vec.data = sample.vec.data ∧ s'.vec.block = sample.vec.block ∧
      s'.vec.owner = sample.vec.owner :=
  gsl_vector_int_set_offset 64 true sample 1 99 (by decide) (by decide) (by decide)

/-! ## C6: ptr and const_ptr check the range as get does -/

/-- C6. With range checking enabled, for every vector and index i, ptr reports
an error exactly when get does, const_ptr reports an error exactly when get
does, and that is exactly when i >= size. The error of ptr and const_ptr is
then "index out of range" with GSL_EINVAL and the pointer handed back is NULL. -/
theorem gsl_vector_int_ptr_range_check (w : Nat) (s : State) (i : Nat) :
    (reported (gsl_vector_int_ptr w true s i) = true ↔
      reported (gsl_vector_int_get w true s i) = true) ∧
    (reported (gsl_vector_int_const_ptr w true s i) = true ↔
      reported (gsl_vector_int_get w true s i) = true) ∧
    (reported (gsl_vector_int_get w true s i) = true ↔ i ≥ s.vec.size) ∧
    (i ≥ s.vec.size →
      gsl_vector_int_ptr w true s i =
        Except.error (Fault.gsl_error "index out of range" gsl_errno_code.GSL_EINVAL NULL) ∧
      gsl_vector_int_const_ptr w true s i =
        Except.error (Fault.gsl_error "index out of range" gsl_errno_code.GSL_EINVAL NULL)) := by
  by_cases h : i ≥ s.vec.size
  · have hg : gsl_vector_int_get w true s i =
        Except.error (Fault.gsl_error "index out of range" gsl_errno_code.GSL_EINVAL 0) := by
      simp only [gsl_vector_int_get, range_check_taken h]
      rfl
    have hp : gsl_vector_int_ptr w true s i =
        Except.error (Fault.gsl_error "index out of range" gsl_errno_code.GSL_EINVAL NULL) := by
      simp only [gsl_vector_int_ptr, range_check_taken h]
      rfl
    have hc : gsl_vector_int_const_ptr w true s i =
        Except.error (Fault.gsl_error "index out of range" gsl_errno_code.GSL_EINVAL NULL) := by
      simp only [gsl_vector_int_const_ptr, range_check_taken h]
      rfl
    simp [hg, hp, hc, reported, h]
  · have hi : i < s.vec.size := Nat.lt_of_not_le h
    have hg : reported (gsl_vector_int_get w true s i) = false := by
      rw [get_in_range w true s i hi]
      cases hl : load s.cells (slot w s.vec i) <;> simp [reported]
    have hp : reported (gsl_vector_int_ptr w true s i) = false := by
      rw [ptr_in_range w true s i hi]
      rfl
    have hc : reported (gsl_vector_int_const_ptr w true s i) = false := by
      rw [const_ptr_in_range w true s i hi]
      rfl
    simp [hg, hp, hc, h]

/-! ## C7: ptr and const_ptr point at the cell itself -/

/-- C7. For every vector and every index i below its size, ptr and const_ptr
return the same pointer, the one to the cell at offset i * stride from data;
reading through it yields what get returns, and writing x through it leaves
the array that set leaves. The cell exists: that offset lies in the array, and
the length of the array is a size_t value. -/
theorem gsl_vector_int_ptr_cell (w : Nat) (rc : Bool) (s : State) (i : Nat) (x : Int)
    (hi : i < s.vec.size) (hlen : s.cells.length < 2 ^ w)
    (hmem : s.vec.data + i * s.vec.stride < s.cells.length) :
    ∃ q : Pointer,
      gsl_vector_int_ptr w rc s i = Except.ok q ∧
      gsl_vector_int_const_ptr w rc s i = Except.ok q ∧
      q = some (s.vec.data + i * s.vec.stride) ∧
      (∃ y, deref s.cells q = some y ∧ gsl_vector_int_get w rc s i = Except.ok y) ∧
      (∃ cells, assign s.cells q x = some cells ∧
        gsl_vector_int_set w rc s i x = Except.ok { s with cells := cells }) := by
  have hslot := slot_exact w s i hlen hmem
  have hmem' : slot w s.vec i < s.cells.length := by omega
  refine ⟨some (s.vec.data + i * s.vec.stride), ?_, ?_, rfl, ?_, ?_⟩
  · rw [ptr_in_range w rc s i hi, hslot]
  · rw [const_ptr_in_range w rc s i hi, hslot]
  · refine ⟨s.cells[s.vec.data + i * s.vec.stride], ?_, ?_⟩
    · simp [deref, load, hmem]
    · rw [get_ok w rc s i hi hmem']
      simp only [hslot]
  · refine ⟨s.cells.set (s.vec.data + i * s.vec.stride) x, ?_, ?_⟩
    · simp [assign, store, hmem]
    · rw [set_ok w rc s i x hi hmem', hslot]

theorem gsl_vector_int_ptr_cell_witness :
    ∃ q : Pointer,
      gsl_vector_int_ptr 64 true sample 2 = Except.ok q ∧
      gsl_vector_int_const_ptr 64 true sample 2 = Except.ok q ∧
      q = some (sample.vec.data + 2 * sample.vec.stride) ∧
      (∃ y, deref sample.cells q = some y ∧ gsl_vector_int_get 64 true sample 2 = Except.ok y) ∧
      (∃ cells, assign sample.cells q 99 = some cells ∧
        gsl_vector_int_set 64 true sample 2 99 = Except.ok { sample with cells := cells }) :=
  gsl_vector_int_ptr_cell 64 true sample 2 99 (by decide) (by decide) (by decide)

/-! ## C8: distinct logical elements do not alias -/

/-- Without wrapping and with a stride of at least 1, distinct indices below
the size address distinct cells. -/
theorem slot_injective (w : Nat) (v : gsl_vector_int) (i j : Nat)
    (hstride : 1 ≤ v.stride) (hnowrap : ∀ k, k < v.size → k * v.stride < 2 ^ w)
    (hi : i < v.size) (hj : j < v.size) (hij : i ≠ j) :
    slot w v i ≠ slot w v j := by
  simp only [slot, size_t_mul_exact (hnowrap i hi), size_t_mul_exact (hnowrap j hj)]
  intro h
  have h2 : i * v.stride = j * v.stride := Nat.add_left_cancel h
  exact hij (Nat.eq_of_mul_eq_mul_right hstride h2)

/-- C8. For every vector with stride >= 1 whose products k * stride do not
wrap in size_t for k below the size, every two distinct indices i and j below
the size whose cells lie in the array, and every x: set at i succeeds, get at
j returns a value y before the call, and get at j returns the same y on the
memory the call leaves. -/
theorem gsl_vector_int_set_get_other (w : Nat) (rc : Bool) (s : State) (i j : Nat) (x : Int)
    (hstride : 1 ≤ s.vec.stride)
    (hnowrap : ∀ k, k < s.vec.size → k * s.vec.stride < 2 ^ w)
    (hi : i < s.vec.size) (hj : j < s.vec.size) (hij : i ≠ j)
    (hmemi : slot w s.vec i < s.cells.length)
    (hmemj : slot w s.vec j < s.cells.length) :
    ∃ s' y, gsl_vector_int_set w rc s i x = Except.ok s' ∧
      gsl_vector_int_get w rc s j = Except.ok y ∧
      gsl_vector_int_get w rc s' j = Except.ok y := by
  have hne := slot_injective w s.vec i j hstride hnowrap hi hj hij
  have hmemj' : slot w s.vec j < (s.cells.set (slot w s.vec i) x).length := by
    simpa using hmemj
  refine ⟨{ s with cells := s.cells.set (slot w s.vec i) x }, s.cells[slot w s.vec j],
    set_ok w rc s i x hi hmemi, get_ok w rc s j hj hmemj, ?_⟩
  rw [get_ok w rc { vec := s.vec, cells := s.cells.set (slot w s.vec i) x } j hj hmemj']
  simp [List.getElem_set_ne hne]

theorem gsl_vector_int_set_get_other_witness :
    ∃ s' y, gsl_vector_int_set 64 true sample 1 99 = Except.ok s' ∧
      gsl_vector_int_get 64 true sample 2 = Except.ok y ∧
      gsl_vector_int_get 64 true s' 2 = Except.ok y :=
  gsl_vector_int_set_get_other 64 true sample 1 2 99 (by decide)
    (fun k hk => by
      have h3 : k < 3 := hk
      have h2 : k * sample.vec.stride = k * 2 := rfl
      rw [h2]
      omega)
    (by decide) (by decide) (by decide) (by decide) (by decide)

/-- With stride 0 two distinct indices below the size address the same cell:
set at 0 changes what get returns at 1. -/
theorem stride_zero_aliases :
    gsl_vector_int_get 64 true stride_zero 1 = Except.ok 7 ∧
    gsl_vector_int_set 64 true stride_zero 0 99 =
      Except.ok { stride_zero with cells := [99] } ∧
    gsl_vector_int_get 64 true { stride_zero with cells := [99] } 1 = Except.ok 99 := by
  decide

/-- When a product wraps two distinct indices below the size address the same
cell: with a size_t of 64 bits, set at 2 changes what get returns at 0. -/
theorem wrapping_aliases :
    gsl_vector_int_get 64 true wrapping 0 = Except.ok 7 ∧
    gsl_vector_int_set 64 true wrapping 2 99 =
      Except.ok { wrapping with cells := [99] } ∧
    gsl_vector_int_get 64 true { wrapping with cells := [99] } 0 = Except.ok 99 := by
  decide

/-! ## C9: in range accesses stay inside the array -/

/-- C9. For a vector laid over an array of len cells from position data on,
with size >= 1 and data + (size - 1) * stride < len, and every index i below
the size: the position data + i * stride is below len, so is the position the
accessors address, and therefore get and set return normally and ptr and
const_ptr return a pointer to a cell of the array. -/
theorem gsl_vector_int_access_in_bounds (w : Nat) (rc : Bool) (s : State) (i : Nat) (x : Int)
    (hsize : 1 ≤ s.vec.size)
    (hfit : s.vec.data + (s.vec.size - 1) * s.vec.stride < s.cells.length)
    (hi : i < s.vec.size) :
    s.vec.data + i * s.vec.stride < s.cells.length ∧
    slot w s.vec i < s.cells.length ∧
    (∃ y, gsl_vector_int_get w rc s i = Except.ok y) ∧
    (∃ s', gsl_vector_int_set w rc s i x = Except.ok s') ∧
    (∃ p, gsl_vector_int_ptr w rc s i = Except.ok (some p) ∧ p < s.cells.length) ∧
    (∃ p, gsl_vector_int_const_ptr w rc s i = Except.ok (some p) ∧ p < s.cells.length) := by
  have hle : i * s.vec.stride ≤ (s.vec.size - 1) * s.vec.stride :=
    Nat.mul_le_mul_right _ (by omega)
  have hoff : s.vec.data + i * s.vec.stride < s.cells.length := by omega
  have hmem : slot w s.vec i < s.cells.length := by
    have := size_t_mul_le w i s.vec.stride
    simp only [slot]
    omega
  exact ⟨hoff, hmem, ⟨_, get_ok w rc s i hi hmem⟩, ⟨_, set_ok w rc s i x hi hmem⟩,
    ⟨_, ptr_in_range w rc s i hi, hmem⟩, ⟨_, const_ptr_in_range w rc s i hi, hmem⟩⟩

theorem gsl_vector_int_access_in_bounds_witness :
    sample.vec.data + 2 * sample.vec.stride < sample.cells.length ∧
    slot 64 sample.vec 2 < sample.cells.length ∧
    (∃ y, gsl_vector_int_get 64 true sample 2 = Except.ok y) ∧
    (∃ s', gsl_vector_int_set 64 true sample 2 99 = Except.ok s') ∧
    (∃ p, gsl_vector_int_ptr 64 true sample 2 = Except.ok (some p) ∧ p < sample.cells.length) ∧
    (∃ p, gsl_vector_int_const_ptr 64 true sample 2 = Except.ok (some p) ∧
      p < sample.cells.length) :=
  gsl_vector_int_access_in_bounds 64 true sample 2 99 (by decide) (by decide) (by decide)

/-! ## C10: the range check changes nothing in range -/

/-- C10. For every vector and every index i below its size, the accessors
compiled with GSL_RANGE_CHECK and those compiled without it agree: same result
of get, same memory after set, same pointer from ptr and from const_ptr. -/
theorem gsl_vector_int_range_check_irrelevant (w : Nat) (s : State) (i : Nat) (x : Int)
    (hi : i < s.vec.size) :
    gsl_vector_int_get w true s i = gsl_vector_int_get w false s i ∧
    gsl_vector_int_set w true s i x = gsl_vector_int_set w false s i x ∧
    gsl_vector_int_ptr w true s i = gsl_vector_int_ptr w false s i ∧
    gsl_vector_int_const_ptr w true s i = gsl_vector_int_const_ptr w false s i := by
  refine ⟨?_, ?_, ?_, ?_⟩
  · rw [get_in_range w true s i hi, get_in_range w false s i hi]
  · rw [set_in_range w true s i x hi, set_in_range w false s i x hi]
  · rw [ptr_in_range w true s i hi, ptr_in_range w false s i hi]
  · rw [const_ptr_in_range w true s i hi, const_ptr_in_range w false s i hi]

theorem gsl_vector_int_range_check_irrelevant_witness :
    gsl_vector_int_get 64 true sample 1 = gsl_vector_int_get 64 false sample 1 ∧
    gsl_vector_int_set 64 true sample 1 99 = gsl_vector_int_set 64 false sample 1 99 ∧
    gsl_vector_int_ptr 64 true sample 1 = gsl_vector_int_ptr 64 false sample 1 ∧
    gsl_vector_int_const_ptr 64 true sample 1 = gsl_vector_int_const_ptr 64 false sample 1 :=
  gsl_vector_int_range_check_irrelevant 64 sample 1 99 (by decide)

end Gsl
